import Mathlib

/-!
Shallow embedding of the price-series validator and analyzer of `src/main.py`
(functions `validate_excel`, `rsi` and `compute_analysis`).

Modelling conventions:
* A raw spreadsheet row is taken after cell coercion: `pd.to_datetime` /
  `pd.to_numeric` with coercion either yield a value or a missing marker
  (NaT / NaN), so each cell is an `Option`.  Dates are integers (ordinal
  timestamps, only their order matters), prices are rationals.
* A dataframe column is a function from the bar index to an `Option` value,
  `none` standing for NaN.
* `df.sort_values` followed by `reset_index` is modelled as a stable sort by
  date (`List.insertionSort`).  The source relies on the pandas default sort
  kind (quicksort), which does not guarantee the order of equal dates; the
  stable sort is the spec's stated intent, and claim C1 records this
  discrepancy as a code bug.  The other claims touching `validate_excel`
  do not depend on the tie order.
* Square roots force `ℝ`; every `Option ℝ` column stays `none` exactly where
  the corresponding pandas column is NaN.
-/

namespace FGH

/-- A raw spreadsheet row after per-cell coercion: each cell is either a
parsed value or a missing marker (`none` for NaT/NaN). -/
structure RawRow where
  date : Option ℤ
  open_ : Option ℚ
  high : Option ℚ
  low : Option ℚ
  close : Option ℚ
  volume : Option ℚ
deriving DecidableEq

/-- A validated price bar.  After validation Open/High/Low/Close are real
numbers; Volume may still be missing (coercion failures are tolerated). -/
structure Bar where
  date : ℤ
  open_ : ℚ
  high : ℚ
  low : ℚ
  close : ℚ
  volume : Option ℚ
deriving DecidableEq

/-- The rejection reasons raised by `validate_excel` (HTTP 400 messages). -/
inductive VError where
  | dateError
  | numericError
  | sanityError
deriving DecidableEq

/-- Rows that survive the date parse (`dropna(subset=["Date"])`). -/
def survivors (t : List RawRow) : List RawRow :=
  t.filter (fun r => r.date.isSome)

/-- Turn a surviving row into a bar.  The `getD` defaults never fire on the
fields the validator has checked to be present. -/
def toBar (r : RawRow) : Bar :=
  { date := r.date.getD 0
    open_ := r.open_.getD 0
    high := r.high.getD 0
    low := r.low.getD 0
    close := r.close.getD 0
    volume := r.volume }

/-- Order on bars used by the sort: non-decreasing date. -/
def dateLE (a b : Bar) : Prop :=
  a.date ≤ b.date

instance : DecidableRel dateLE :=
  fun a b => inferInstanceAs (Decidable (a.date ≤ b.date))

instance : IsTotal Bar dateLE :=
  ⟨fun a b => le_total a.date b.date⟩

instance : IsTrans Bar dateLE :=
  ⟨fun _ _ _ h1 h2 => le_trans h1 h2⟩

/-- Does a row fail numeric coercion on a required price column? -/
def ohlcMissing (r : RawRow) : Bool :=
  r.open_.isNone || r.high.isNone || r.low.isNone || r.close.isNone

/-- The `High < Low` sanity test on one row; as in pandas, a comparison
involving NaN is false. -/
def highLtLow (r : RawRow) : Bool :=
  match r.high, r.low with
  | some h, some l => decide (h < l)
  | _, _ => false

/-- Embedding of `validate_excel`: drop rows whose date fails to parse,
reject when none survive, reject when any surviving row misses an
Open/High/Low/Close value, reject when any surviving row has High < Low,
then sort by date (stable) and re-index. -/
def validate_excel (t : List RawRow) : Except VError (List Bar) :=
  if (survivors t).isEmpty then .error .dateError
  else if (survivors t).any ohlcMissing then .error .numericError
  else if (survivors t).any highLtLow then .error .sanityError
  else .ok (List.insertionSort dateLE ((survivors t).map toBar))

/-! ### Analyzer: per-bar indicator columns (`compute_analysis` and `rsi`) -/

/-- The close column of a validated series. -/
def closes (s : List Bar) : List ℚ :=
  s.map Bar.close

/-- Daily return column, `close.pct_change()`: NaN at index 0, otherwise
`close[i]/close[i-1] - 1`.  Indices outside the frame are also `none`. -/
def retAt (c : List ℚ) (i : ℕ) : Option ℚ :=
  if 0 < i ∧ i < c.length then some (c.getD i 0 / c.getD (i - 1) 0 - 1) else none

/-- Running product `(1 + ret.fillna(0)).cumprod()` as a bare rational. -/
def cumProd (c : List ℚ) (i : ℕ) : ℚ :=
  ∏ j ∈ Finset.range (i + 1), (1 + (retAt c j).getD 0)

/-- Cumulative-return column (`cum_return`). -/
def cumAt (c : List ℚ) (i : ℕ) : Option ℚ :=
  if i < c.length then some (cumProd c i) else none

/-- Running maximum of the cumulative return (`cummax`). -/
def rollMax (c : List ℚ) (i : ℕ) : ℚ :=
  (List.range (i + 1)).foldl (fun m j => max m (cumProd c j)) (cumProd c 0)

/-- Drawdown column: `cum_return / cummax - 1`. -/
def ddAt (c : List ℚ) (i : ℕ) : Option ℚ :=
  if i < c.length then some (cumProd c i / rollMax c i - 1) else none

/-- Mean of a list of rationals (`Series.mean`). -/
def mean (l : List ℚ) : ℚ :=
  l.sum / l.length

/-- Sample variance with one delta degree of freedom, the square of
`Series.std()` (pandas default ddof = 1). -/
def sampleVar (l : List ℚ) : ℚ :=
  ((l.map (fun x => (x - mean l) ^ 2)).sum) / ((l.length : ℚ) - 1)

/-- The length-20 slice of a column ending at index `i`
(the rolling window behind `rolling(20)`). -/
def window20 (l : List ℚ) (i : ℕ) : List ℚ :=
  (l.drop (i - 19)).take 20

/-- SMA(20) column, `close.rolling(20).mean()`: NaN before 19 full
observations, otherwise the mean of the window ending at `i`. -/
def smaAt (c : List ℚ) (i : ℕ) : Option ℚ :=
  if 19 ≤ i ∧ i < c.length then some (mean (window20 c i)) else none

/-- Rolling-20 sample standard deviation of close, `close.rolling(20).std()`. -/
noncomputable def rollStdAt (c : List ℚ) (i : ℕ) : Option ℝ :=
  if 19 ≤ i ∧ i < c.length then some (Real.sqrt (sampleVar (window20 c i))) else none

/-- Bollinger middle band: the SMA(20) column itself. -/
def bbMidAt (c : List ℚ) (i : ℕ) : Option ℚ :=
  smaAt c i

/-- Bollinger upper band `mid + 2 * std`; NaN propagates through `+`. -/
noncomputable def bbUpperAt (c : List ℚ) (i : ℕ) : Option ℝ :=
  (smaAt c i).bind (fun m => (rollStdAt c i).map (fun sd => (m : ℝ) + 2 * sd))

/-- Bollinger lower band `mid - 2 * std`; NaN propagates through `-`. -/
noncomputable def bbLowerAt (c : List ℚ) (i : ℕ) : Option ℝ :=
  (smaAt c i).bind (fun m => (rollStdAt c i).map (fun sd => (m : ℝ) - 2 * sd))

/-- Gain column of `rsi`: `delta.clip(lower=0)` at index `i`
(only meaningful for `1 ≤ i < length`). -/
def gain (c : List ℚ) (i : ℕ) : ℚ :=
  max (c.getD i 0 - c.getD (i - 1) 0) 0

/-- Loss column of `rsi`: `(-delta).clip(lower=0)` at index `i`. -/
def loss (c : List ℚ) (i : ℕ) : ℚ :=
  max (c.getD (i - 1) 0 - c.getD i 0) 0

/-- Wilder-smoothed average gain, `gain.ewm(alpha=1/14, adjust=False).mean()`:
the leading NaN of `diff` is skipped, so the average is seeded at index 1 and
then follows `y = (1-α)·y + α·x` with `α = 1/14`. -/
def avgGain (c : List ℚ) : ℕ → ℚ
  | 0 => 0
  | 1 => gain c 1
  | i + 2 => (13 / 14) * avgGain c (i + 1) + (1 / 14) * gain c (i + 2)

/-- Wilder-smoothed average loss, symmetric to `avgGain`. -/
def avgLoss (c : List ℚ) : ℕ → ℚ
  | 0 => 0
  | 1 => loss c 1
  | i + 2 => (13 / 14) * avgLoss c (i + 1) + (1 / 14) * loss c (i + 2)

/-- RSI(14) column: `100 - 100/(1 + avg_gain/avg_loss)` with the zero average
loss replaced by NaN before the division, so the entry is undefined there;
also undefined at index 0 (the seed NaN of `diff`). -/
def rsiAt (c : List ℚ) (i : ℕ) : Option ℚ :=
  if 1 ≤ i ∧ i < c.length then
    if avgLoss c i = 0 then none
    else some (100 - 100 / (1 + avgGain c i / avgLoss c i))
  else none

/-- The daily-return column as a list of optional values. -/
def retCol (c : List ℚ) : List (Option ℚ) :=
  (List.range c.length).map (retAt c)

/-- Rolling volatility, `ret.rolling(20).std()`: the window ending at `i`
contains the NaN at position 0 unless `20 ≤ i`, so the column is defined
exactly for `20 ≤ i < length`. -/
noncomputable def volAt (c : List ℚ) (i : ℕ) : Option ℝ :=
  if 20 ≤ i ∧ i < c.length then
    some (Real.sqrt (sampleVar ((((retCol c).drop (i - 19)).take 20).map (fun o => o.getD 0))))
  else none

/-! ### Analyzer: summary statistics -/

/-- The defined daily returns in index order (`rets = df["ret"].dropna()`). -/
def retsList (c : List ℚ) : List ℚ :=
  (List.range c.length).filterMap (retAt c)

/-- Fraction of positive-return days among defined returns;
`None` when no return is defined. -/
def positiveDaysPct (c : List ℚ) : Option ℚ :=
  if (retsList c).length = 0 then none
  else some (((retsList c).countP (fun r => decide (0 < r)) : ℚ) / (retsList c).length)

/-- Fraction of negative-return days among defined returns. -/
def negativeDaysPct (c : List ℚ) : Option ℚ :=
  if (retsList c).length = 0 then none
  else some (((retsList c).countP (fun r => decide (r < 0)) : ℚ) / (retsList c).length)

/-- The defined returns paired with their bar index, in index order. -/
def definedRets (s : List Bar) : List (ℕ × ℚ) :=
  (List.range s.length).filterMap
    (fun i => (retAt (closes s) i).map (fun r => (i, r)))

/-- Best single day (`rets.idxmax()` guarded by `total > 0`): date and value
of the first maximal defined return, `none` when no return is defined. -/
def bestDay (s : List Bar) : Option (ℤ × ℚ) :=
  match definedRets s with
  | [] => none
  | x :: xs =>
    let best := (x :: xs).foldl (fun acc p => if acc.2 < p.2 then p else acc) x
    (s[best.1]?).map (fun b => (b.date, best.2))

/-- Worst single day (`rets.idxmin()` guarded by `total > 0`). -/
def worstDay (s : List Bar) : Option (ℤ × ℚ) :=
  match definedRets s with
  | [] => none
  | x :: xs =>
    let worst := (x :: xs).foldl (fun acc p => if p.2 < acc.2 then p else acc) x
    (s[worst.1]?).map (fun b => (b.date, worst.2))

/-- Annualized Sharpe ratio: computed only when more than 10 defined returns
exist and their standard deviation is positive (a falsy or non-positive
`std` leaves it `None`). -/
noncomputable def sharpe (c : List ℚ) : Option ℝ :=
  if 10 < (retsList c).length ∧ 0 < sampleVar (retsList c) then
    some (((mean (retsList c) : ℝ) / Real.sqrt (sampleVar (retsList c))) * Real.sqrt 252)
  else none

/-- Annualized Sortino ratio: computed only when more than 10 defined returns
exist and the sample standard deviation of the negative subset is a positive
number (with fewer than two negative returns that deviation is NaN, which the
code's truthiness test also rejects). -/
noncomputable def sortino (c : List ℚ) : Option ℝ :=
  if 10 < (retsList c).length ∧ 2 ≤ ((retsList c).filter (fun r => decide (r < 0))).length ∧
      0 < sampleVar ((retsList c).filter (fun r => decide (r < 0))) then
    some (((mean (retsList c) : ℝ) /
      Real.sqrt (sampleVar ((retsList c).filter (fun r => decide (r < 0))))) * Real.sqrt 252)
  else none

/-! ### Claims -/

/-- Claim C7: for every validated series with at least one bar, the
cumulative-return column starts at 1.0 and the drawdown column starts
at 0.0. -/
theorem claim_C7 (c : List ℚ) (h : 0 < c.length) :
    cumAt c 0 = some 1 ∧ ddAt c 0 = some 0 := by
  have h0 : cumProd c 0 = 1 := by
    simp [cumProd, retAt]
  have hmax : rollMax c 0 = 1 := by
    have hr : List.range 1 = [0] := rfl
    simp [rollMax, hr, h0]
  refine ⟨?_, ?_⟩
  · simp [cumAt, h, h0]
  · simp [ddAt, h, h0, hmax]

/-- Witness for C7 on the one-bar series with close 5. -/
theorem claim_C7_witness :
    cumAt [(5 : ℚ)] 0 = some 1 ∧ ddAt [(5 : ℚ)] 0 = some 0 :=
  claim_C7 [(5 : ℚ)] (by decide)

/-- Claim C10: the validator imposes no sanity relation between High/Low and
Open/Close.  A two-row table whose second row has Close greater than High is
accepted unchanged, with that row intact in the output. -/
theorem claim_C10 :
    validate_excel
      [⟨some 1, some 1, some 2, some 1, some 2, some 6⟩,
       ⟨some 2, some 1, some 2, some 1, some 5, some 3⟩] =
      Except.ok
        [⟨1, 1, 2, 1, 2, some 6⟩, ⟨2, 1, 2, 1, 5, some 3⟩] ∧
    (2 : ℚ) < 5 := by
  exact ⟨rfl, by norm_num⟩

/-- Claim C8: on a single-bar series the analyzer produces no failure: every
rolling/windowed indicator entry (SMA, Bollinger, RSI, volatility) is the
undefined marker, the daily return is undefined, and the summary best/worst
day are undefined. -/
theorem claim_C8 (b : Bar) :
    retAt (closes [b]) 0 = none ∧
    smaAt (closes [b]) 0 = none ∧
    bbMidAt (closes [b]) 0 = none ∧
    bbUpperAt (closes [b]) 0 = none ∧
    bbLowerAt (closes [b]) 0 = none ∧
    rsiAt (closes [b]) 0 = none ∧
    volAt (closes [b]) 0 = none ∧
    bestDay [b] = none ∧
    worstDay [b] = none := by
  refine ⟨rfl, rfl, rfl, rfl, rfl, rfl, rfl, rfl, rfl⟩

/-- The clipped gain column is nonnegative. -/
lemma gain_nonneg (c : List ℚ) (i : ℕ) : 0 ≤ gain c i :=
  le_max_right _ _

/-- The clipped loss column is nonnegative. -/
lemma loss_nonneg (c : List ℚ) (i : ℕ) : 0 ≤ loss c i :=
  le_max_right _ _

/-- Wilder smoothing of a nonnegative column stays nonnegative. -/
lemma avgGain_nonneg (c : List ℚ) : ∀ i, 0 ≤ avgGain c i
  | 0 => le_refl 0
  | 1 => by
    simpa [avgGain] using gain_nonneg c 1
  | i + 2 => by
    have ih := avgGain_nonneg c (i + 1)
    have hg := gain_nonneg c (i + 2)
    simp only [avgGain]
    nlinarith

/-- Wilder smoothing of the loss column stays nonnegative. -/
lemma avgLoss_nonneg (c : List ℚ) : ∀ i, 0 ≤ avgLoss c i
  | 0 => le_refl 0
  | 1 => by
    simpa [avgLoss] using loss_nonneg c 1
  | i + 2 => by
    have ih := avgLoss_nonneg c (i + 1)
    have hl := loss_nonneg c (i + 2)
    simp only [avgLoss]
    nlinarith

/-- Claim C2: every defined RSI(14) entry lies within [0,100], and wherever
the Wilder-smoothed average loss is exactly zero the RSI entry is the
undefined marker (never the value 100). -/
theorem claim_C2 :
    (∀ (c : List ℚ) (i : ℕ) (x : ℚ), rsiAt c i = some x → 0 ≤ x ∧ x ≤ 100) ∧
    (∀ (c : List ℚ) (i : ℕ), avgLoss c i = 0 → rsiAt c i = none) := by
  constructor
  · intro c i x h
    unfold rsiAt at h
    split_ifs at h with h1 h2
    obtain rfl : 100 - 100 / (1 + avgGain c i / avgLoss c i) = x := by
      injection h
    have hg : 0 ≤ avgGain c i := avgGain_nonneg c i
    have hlpos : 0 < avgLoss c i :=
      lt_of_le_of_ne (avgLoss_nonneg c i) (Ne.symm h2)
    have hrs : 0 ≤ avgGain c i / avgLoss c i := div_nonneg hg hlpos.le
    have hub : 100 / (1 + avgGain c i / avgLoss c i) ≤ 100 :=
      div_le_self (by norm_num) (by linarith)
    have hlb : 0 ≤ 100 / (1 + avgGain c i / avgLoss c i) :=
      div_nonneg (by norm_num) (by linarith)
    constructor <;> linarith
  · intro c i h
    simp [rsiAt, h]

/-- Witness for C2: on closes [1,2,1] the RSI at index 2 is defined and the
theorem bounds it; on the rising closes [1,2,3] the average loss at index 1
is zero and the RSI entry is undefined. -/
theorem claim_C2_witness :
    ((0 : ℚ) ≤ 650 / 7 ∧ (650 / 7 : ℚ) ≤ 100) ∧ rsiAt [1, 2, 3] 1 = none :=
  ⟨claim_C2.1 [1, 2, 1] 2 (650 / 7) (by norm_num [rsiAt, avgGain, avgLoss, gain, loss]),
   claim_C2.2 [1, 2, 3] 1 (by norm_num [avgLoss, loss])⟩

/-- At most every element of a list is counted by the positive and the
negative sign predicates together (they are mutually exclusive). -/
lemma countP_signs_le (l : List ℚ) :
    l.countP (fun r => decide (0 < r)) + l.countP (fun r => decide (r < 0)) ≤ l.length := by
  induction l with
  | nil => simp
  | cons a t ih =>
    by_cases h1 : 0 < a
    · have h2 : ¬a < 0 := fun h2 => absurd (h1.trans h2) (lt_irrefl 0)
      simp only [List.countP_cons, List.length_cons, h1, h2]
      simp only [decide_True, decide_False, Bool.false_eq_true, eq_self_iff_true,
        if_true, if_false]
      omega
    · by_cases h2 : a < 0 <;>
        · simp only [List.countP_cons, List.length_cons, h1, h2]
          simp only [decide_True, decide_False, Bool.false_eq_true, eq_self_iff_true,
            if_true, if_false]
          omega

/-- With a zero element in the list the two sign counts together miss at
least one element. -/
lemma countP_signs_lt (l : List ℚ) (h : (0 : ℚ) ∈ l) :
    l.countP (fun r => decide (0 < r)) + l.countP (fun r => decide (r < 0)) < l.length := by
  induction l with
  | nil => cases h
  | cons a t ih =>
    rcases List.mem_cons.mp h with h0 | ht
    · have := countP_signs_le t
      simp only [List.countP_cons, List.length_cons, ← h0]
      simp only [lt_self_iff_false, decide_False, Bool.false_eq_true, if_false]
      omega
    · have := ih ht
      by_cases h1 : 0 < a
      · have h2 : ¬a < 0 := fun h2 => absurd (h1.trans h2) (lt_irrefl 0)
        simp only [List.countP_cons, List.length_cons, h1, h2]
        simp only [decide_True, decide_False, Bool.false_eq_true, eq_self_iff_true,
          if_true, if_false]
        omega
      · by_cases h2 : a < 0 <;>
          · simp only [List.countP_cons, List.length_cons, h1, h2]
            simp only [decide_True, decide_False, Bool.false_eq_true, eq_self_iff_true,
              if_true, if_false]
            omega

/-- Claim C9: days with a defined daily return equal to zero count in neither
the positive-day fraction nor the negative-day fraction, and whenever such a
day exists the two fractions sum to strictly less than 1 (both use the count
of all defined returns as denominator). -/
theorem claim_C9 (c : List ℚ) (h : (0 : ℚ) ∈ retsList c) :
    ∃ p n, positiveDaysPct c = some p ∧ negativeDaysPct c = some n ∧ p + n < 1 := by
  have hne : (retsList c).length ≠ 0 := by
    intro h0
    rw [List.length_eq_zero] at h0
    rw [h0] at h
    cases h
  have hlt := countP_signs_lt (retsList c) h
  refine ⟨((retsList c).countP (fun r => decide (0 < r)) : ℚ) / (retsList c).length,
    ((retsList c).countP (fun r => decide (r < 0)) : ℚ) / (retsList c).length, ?_, ?_, ?_⟩
  · simp [positiveDaysPct, hne]
  · simp [negativeDaysPct, hne]
  · have hpos : (0 : ℚ) < (retsList c).length := by
      exact_mod_cast Nat.pos_of_ne_zero hne
    rw [div_add_div_same, div_lt_one hpos]
    exact_mod_cast hlt

/-- Witness for C9 on closes [1,1,2]: the flat day produces the defined
return 0. -/
theorem claim_C9_witness :
    ∃ p n, positiveDaysPct [(1 : ℚ), 1, 2] = some p ∧
      negativeDaysPct [(1 : ℚ), 1, 2] = some n ∧ p + n < 1 :=
  claim_C9 [(1 : ℚ), 1, 2] (by norm_num [retsList, retAt, List.range_succ])

/-- Claim C3: a surviving row with a missing Open/High/Low/Close value makes
the validator reject the whole input with the numeric error, while Volume
coercion failures are tolerated: whenever validation succeeds every surviving
row (including those with missing Volume) is kept, with the count preserved,
and an input whose only defect is a missing Volume is accepted. -/
theorem claim_C3 (t : List RawRow) :
    (∀ r ∈ survivors t, ohlcMissing r = true →
      validate_excel t = Except.error VError.numericError) ∧
    (∀ s, validate_excel t = Except.ok s →
      (∀ r ∈ survivors t, toBar r ∈ s) ∧ s.length = (survivors t).length) ∧
    (survivors t ≠ [] → (∀ r ∈ survivors t, ohlcMissing r = false) →
      (∀ r ∈ survivors t, highLtLow r = false) →
      validate_excel t =
        Except.ok (List.insertionSort dateLE ((survivors t).map toBar))) := by
  refine ⟨?_, ?_, ?_⟩
  · intro r hr hm
    have hne : ¬(survivors t).isEmpty = true := by
      simp only [List.isEmpty_iff]
      exact List.ne_nil_of_mem hr
    have hany : (survivors t).any ohlcMissing = true :=
      List.any_eq_true.mpr ⟨r, hr, hm⟩
    unfold validate_excel
    rw [if_neg hne, if_pos hany]
  · intro s hs
    unfold validate_excel at hs
    split_ifs at hs
    obtain rfl : List.insertionSort dateLE ((survivors t).map toBar) = s := by
      injection hs
    refine ⟨?_, ?_⟩
    · intro r hr
      rw [List.mem_insertionSort]
      exact List.mem_map_of_mem toBar hr
    · rw [List.length_insertionSort, List.length_map]
  · intro hne hnum hsan
    have h1 : ¬(survivors t).isEmpty = true := by
      simp only [List.isEmpty_iff]
      exact hne
    have h2 : ¬(survivors t).any ohlcMissing = true := by
      simp only [List.any_eq_true, not_exists]
      intro r hcon
      rw [hnum r hcon.1] at hcon
      exact absurd hcon.2 (by simp)
    have h3 : ¬(survivors t).any highLtLow = true := by
      simp only [List.any_eq_true, not_exists]
      intro r hcon
      rw [hsan r hcon.1] at hcon
      exact absurd hcon.2 (by simp)
    unfold validate_excel
    rw [if_neg h1, if_neg h2, if_neg h3]

/-- Witness for C3: a row missing Open is rejected with the numeric error; a
row whose only missing value is Volume is accepted and kept. -/
theorem claim_C3_witness :
    validate_excel [⟨some 1, none, some 2, some 1, some 2, some 5⟩] =
      Except.error VError.numericError ∧
    validate_excel [⟨some 1, some 1, some 3, some 1, some 2, none⟩] =
      Except.ok (List.insertionSort dateLE
        ((survivors [⟨some 1, some 1, some 3, some 1, some 2, none⟩]).map toBar)) :=
  ⟨(claim_C3 _).1 ⟨some 1, none, some 2, some 1, some 2, some 5⟩ (by decide) (by decide),
   (claim_C3 _).2.2 (by decide) (by decide) (by decide)⟩

/-- Claim C6: a surviving row with High strictly below Low forces the
validator to reject the entire input (no per-row skipping: the result is a
rejection, not a shortened series). -/
theorem claim_C6 (t : List RawRow) (r : RawRow) (x y : ℚ)
    (hr : r ∈ survivors t) (hh : r.high = some x) (hl : r.low = some y)
    (hxy : x < y) :
    ∃ e, validate_excel t = Except.error e := by
  have hne : ¬(survivors t).isEmpty = true := by
    simp only [List.isEmpty_iff]
    exact List.ne_nil_of_mem hr
  by_cases hnum : (survivors t).any ohlcMissing = true
  · refine ⟨VError.numericError, ?_⟩
    unfold validate_excel
    rw [if_neg hne, if_pos hnum]
  · have hrow : highLtLow r = true := by
      unfold highLtLow
      rw [hh, hl]
      exact decide_eq_true hxy
    have hany : (survivors t).any highLtLow = true :=
      List.any_eq_true.mpr ⟨r, hr, hrow⟩
    refine ⟨VError.sanityError, ?_⟩
    unfold validate_excel
    rw [if_neg hne, if_neg hnum, if_pos hany]

/-- Witness for C6 on a one-row table with High 2 and Low 5. -/
theorem claim_C6_witness :
    ∃ e, validate_excel [⟨some 1, some 1, some 2, some 5, some 2, some 5⟩] =
      Except.error e :=
  claim_C6 [⟨some 1, some 1, some 2, some 5, some 2, some 5⟩]
    ⟨some 1, some 1, some 2, some 5, some 2, some 5⟩ 2 5
    (by decide) (by decide) (by decide) (by norm_num)

/-- Claim C1 (stability part settled as a code bug): the claim demands that
validation output be sorted non-decreasing by date with equal-date rows in
their relative input order.  The source sorts with `df.sort_values("Date")`
under the pandas default sort kind (quicksort, numpy introsort), which the
pandas and numpy documentation state is not stable; with 17 or more rows
tied on one date the size exceeds the introsort insertion-sort cutoff (16),
partition swaps permute the tied rows, and the claimed tie order is not
guaranteed, although the spec explicitly requires a stable sort.  This
theorem evaluates that failing input in the model -- 17 rows tied on date 1
with closes 0..16 -- whose sort is the stable one the spec intends: the
required output keeps the tied rows in input order (sorted, with all rows
kept); the code's introsort permutes them instead. -/
theorem claim_C1 :
    validate_excel ((List.range 17).map (fun k =>
      ⟨some 1, some 1, some 3, some 1, some (k : ℚ), some 5⟩)) =
      Except.ok ((List.range 17).map (fun k =>
        ⟨1, 1, 3, 1, (k : ℚ), some 5⟩)) := by
  rfl

/-- Inside the frame, the rolling window ending at index `i ≥ 19` has
exactly 20 entries. -/
lemma window20_length (c : List ℚ) (i : ℕ) (h1 : 19 ≤ i) (h2 : i < c.length) :
    (window20 c i).length = 20 := by
  unfold window20
  rw [List.length_take, List.length_drop]
  omega

/-- Claim C4: SMA(20) is undefined before index 19 and equals the arithmetic
mean of the 20 closes ending at `i` otherwise (the window really is
`close[i-19..i]`); Bollinger mid is the SMA(20) column, upper/lower are
mid plus/minus twice the rolling standard deviation, and all three bands
are undefined exactly where SMA(20) is. -/
theorem claim_C4 (c : List ℚ) (i : ℕ) :
    (i < 19 → smaAt c i = none) ∧
    (19 ≤ i → i < c.length →
      smaAt c i = some ((window20 c i).sum / 20) ∧
      (window20 c i).length = 20 ∧
      (∀ j, j < 20 → (window20 c i).getD j 0 = c.getD (i - 19 + j) 0)) ∧
    bbMidAt c i = smaAt c i ∧
    (bbUpperAt c i = none ↔ smaAt c i = none) ∧
    (bbLowerAt c i = none ↔ smaAt c i = none) ∧
    (∀ (m : ℚ) (sd : ℝ), smaAt c i = some m → rollStdAt c i = some sd →
      bbUpperAt c i = some ((m : ℝ) + 2 * sd) ∧
      bbLowerAt c i = some ((m : ℝ) - 2 * sd)) := by
  refine ⟨?_, ?_, rfl, ?_, ?_, ?_⟩
  · intro h
    have hno : ¬(19 ≤ i ∧ i < c.length) := fun hc => absurd hc.1 (by omega)
    rw [smaAt, if_neg hno]
  · intro h1 h2
    have hw := window20_length c i h1 h2
    refine ⟨?_, hw, ?_⟩
    · rw [smaAt, if_pos ⟨h1, h2⟩]
      unfold mean
      rw [hw]
      norm_num
    · intro j hj
      have hji : i - 19 + j < c.length := by omega
      unfold window20
      rw [List.getD_eq_getElem?_getD, List.getD_eq_getElem?_getD,
        List.getElem?_take_of_lt hj, List.getElem?_drop]
  · by_cases hc : 19 ≤ i ∧ i < c.length
    · rw [smaAt, if_pos hc, bbUpperAt, smaAt, if_pos hc, rollStdAt, if_pos hc]
      simp
    · rw [smaAt, if_neg hc, bbUpperAt, smaAt, if_neg hc]
      simp
  · by_cases hc : 19 ≤ i ∧ i < c.length
    · rw [smaAt, if_pos hc, bbLowerAt, smaAt, if_pos hc, rollStdAt, if_pos hc]
      simp
    · rw [smaAt, if_neg hc, bbLowerAt, smaAt, if_neg hc]
      simp
  · intro m sd hm hsd
    rw [bbUpperAt, bbLowerAt, hm, hsd]
    exact ⟨rfl, rfl⟩

/-- Witness for C4 on twenty constant closes: SMA(20) is defined at index 19
and undefined at index 5. -/
theorem claim_C4_witness :
    smaAt (List.replicate 20 (3 : ℚ)) 19 =
      some ((window20 (List.replicate 20 (3 : ℚ)) 19).sum / 20) ∧
    smaAt (List.replicate 20 (3 : ℚ)) 5 = none :=
  ⟨((claim_C4 (List.replicate 20 (3 : ℚ)) 19).2.1 (by norm_num) (by norm_num)).1,
   (claim_C4 (List.replicate 20 (3 : ℚ)) 5).1 (by norm_num)⟩

/-- Claim C5: Sharpe and Sortino are both undefined with 10 or fewer defined
returns; above 10 returns Sharpe is `(mean/σ)·√252` when `σ > 0` and undefined
otherwise, and Sortino is `(mean/σ_downside)·√252` with `σ_downside` the
sample standard deviation of the negative returns, undefined when that
deviation is not a positive number (fewer than two negative returns included,
since the sample deviation is then NaN). -/
theorem claim_C5 (c : List ℚ) :
    ((retsList c).length ≤ 10 → sharpe c = none ∧ sortino c = none) ∧
    (10 < (retsList c).length →
      (0 < sampleVar (retsList c) →
        sharpe c = some (((mean (retsList c) : ℝ) / Real.sqrt (sampleVar (retsList c))) *
          Real.sqrt 252)) ∧
      (sampleVar (retsList c) ≤ 0 → sharpe c = none) ∧
      (2 ≤ ((retsList c).filter (fun r => decide (r < 0))).length →
        0 < sampleVar ((retsList c).filter (fun r => decide (r < 0))) →
        sortino c = some (((mean (retsList c) : ℝ) /
          Real.sqrt (sampleVar ((retsList c).filter (fun r => decide (r < 0))))) *
          Real.sqrt 252)) ∧
      ((((retsList c).filter (fun r => decide (r < 0))).length < 2 ∨
          sampleVar ((retsList c).filter (fun r => decide (r < 0))) ≤ 0) →
        sortino c = none)) := by
  constructor
  · intro h
    constructor
    · rw [sharpe, if_neg]
      exact fun hc => absurd hc.1 (by omega)
    · rw [sortino, if_neg]
      exact fun hc => absurd hc.1 (by omega)
  · intro h
    refine ⟨?_, ?_, ?_, ?_⟩
    · intro hv
      rw [sharpe, if_pos ⟨h, hv⟩]
    · intro hv
      rw [sharpe, if_neg]
      exact fun hc => absurd hc.2 (by linarith)
    · intro hd2 hdv
      rw [sortino, if_pos ⟨h, hd2, hdv⟩]
    · intro hbad
      rw [sortino, if_neg]
      rcases hbad with hb | hb
      · exact fun hc => absurd hc.2.1 (by omega)
      · exact fun hc => absurd hc.2.2 (by linarith)

/-- Witness for C5 on thirteen closes giving twelve defined returns of mixed
sign: both ratios are defined with the stated values. -/
theorem claim_C5_witness :
    sharpe [(4 : ℚ), 8, 4, 8, 4, 8, 4, 8, 4, 8, 4, 8, 2] =
      some (((mean (retsList [(4 : ℚ), 8, 4, 8, 4, 8, 4, 8, 4, 8, 4, 8, 2]) : ℝ) /
        Real.sqrt (sampleVar (retsList [(4 : ℚ), 8, 4, 8, 4, 8, 4, 8, 4, 8, 4, 8, 2]))) *
        Real.sqrt 252) ∧
    sortino [(4 : ℚ), 8, 4, 8, 4, 8, 4, 8, 4, 8, 4, 8, 2] =
      some (((mean (retsList [(4 : ℚ), 8, 4, 8, 4, 8, 4, 8, 4, 8, 4, 8, 2]) : ℝ) /
        Real.sqrt (sampleVar ((retsList [(4 : ℚ), 8, 4, 8, 4, 8, 4, 8, 4, 8, 4, 8, 2]).filter
          (fun r => decide (r < 0))))) * Real.sqrt 252) := by
  have hr : retsList [(4 : ℚ), 8, 4, 8, 4, 8, 4, 8, 4, 8, 4, 8, 2] =
      [1, -(1 / 2), 1, -(1 / 2), 1, -(1 / 2), 1, -(1 / 2), 1, -(1 / 2), 1, -(3 / 4)] := by
    norm_num [retsList, retAt, List.range_succ, List.filterMap_cons]
  have hlen : 10 < (retsList [(4 : ℚ), 8, 4, 8, 4, 8, 4, 8, 4, 8, 4, 8, 2]).length := by
    rw [hr]
    norm_num
  have hfil : (retsList [(4 : ℚ), 8, 4, 8, 4, 8, 4, 8, 4, 8, 4, 8, 2]).filter
      (fun r => decide (r < 0)) =
      [-(1 / 2), -(1 / 2), -(1 / 2), -(1 / 2), -(1 / 2), -(3 / 4)] := by
    rw [hr]
    norm_num
  have hv : 0 < sampleVar (retsList [(4 : ℚ), 8, 4, 8, 4, 8, 4, 8, 4, 8, 4, 8, 2]) := by
    rw [hr]
    norm_num [sampleVar, mean]
  have hd2 : 2 ≤ ((retsList [(4 : ℚ), 8, 4, 8, 4, 8, 4, 8, 4, 8, 4, 8, 2]).filter
      (fun r => decide (r < 0))).length := by
    rw [hfil]
    norm_num
  have hdv : 0 < sampleVar ((retsList [(4 : ℚ), 8, 4, 8, 4, 8, 4, 8, 4, 8, 4, 8, 2]).filter
      (fun r => decide (r < 0))) := by
    rw [hfil]
    norm_num [sampleVar, mean]
  exact ⟨((claim_C5 _).2 hlen).1 hv, ((claim_C5 _).2 hlen).2.2.1 hd2 hdv⟩

end FGH
